import Mathlib

set_option autoImplicit false

namespace PanahonApi

/-! ## Data model

Shallow embedding of the authentication/authorization core of the
panahon-api-go weather-telemetry backend: the external-token Provisioner,
the Paseto token codec, the request gatekeeper middleware chain, the
session renew flow, server construction, and the `UpdateUser` query. -/

/-- A row of the sim access token table (`db.SimAccessToken`): an external
(telco) access token keyed by (mobile_number, token_type). -/
structure SimAccessToken where
  access_token : String
  mobile_number : String
  token_type : String
  deriving Repr, DecidableEq

/-- The read path of the Provisioner: look up the first row matching the
(mobile_number, token_type) key. -/
def findToken (store : List SimAccessToken) (mobileNumber tokenType : String) :
    Option SimAccessToken :=
  store.find? (fun r => r.mobile_number == mobileNumber && r.token_type == tokenType)

/-- Number of rows in storage for a given (mobile_number, token_type) key. -/
def countKey (store : List SimAccessToken) (mobileNumber tokenType : String) : Nat :=
  (store.filter (fun r => r.mobile_number == mobileNumber && r.token_type == tokenType)).length

/-- Modelled from the spec: `store.FirstOrCreateSimAccessTokenTx` (§4.4), whose
implementation is not under src/ (only its tests and callers are). The
serialized, per-transaction atomic view: read the row for the key; if found
return it with is_created=false, ignoring the supplied access_token; if not
found insert a new row with the supplied access_token and return it with
is_created=true. Returns (storage afterwards, resulting row, is_created). -/
def firstOrCreate (store : List SimAccessToken)
    (accessToken tokenType mobileNumber : String) :
    List SimAccessToken × SimAccessToken × Bool :=
  match findToken store mobileNumber tokenType with
  | some row => (store, row, false)
  | none =>
    let row : SimAccessToken := ⟨accessToken, mobileNumber, tokenType⟩
    (store ++ [row], row, true)

/-- N calls of the Provisioner with the same key and a list of supplied
access_token values, serialized in an arbitrary order (the database
transaction is the only synchronization primitive, §5, so any concurrent
schedule is equivalent to some serial order of the atomic transactions).
Returns the final storage and the list of (row, is_created) results. -/
def runCalls (store : List SimAccessToken) (mobileNumber tokenType : String) :
    List String → List SimAccessToken × List (SimAccessToken × Bool)
  | [] => (store, [])
  | t :: ts =>
    let step := firstOrCreate store t tokenType mobileNumber
    let rest := runCalls step.1 mobileNumber tokenType ts
    (rest.1, (step.2.1, step.2.2) :: rest.2)

/-- Store-level errors the Provisioner's insert can report (§7): a
uniqueness conflict (a concurrent transaction won the race) or a generic
internal store failure. -/
inductive StoreError where
  | UniqueViolation
  | Internal
  deriving Repr, DecidableEq

/-- Store operations performed inside the Provisioner's transaction,
recorded as a trace to count read-path executions. -/
inductive TxOp where
  | read
  | insert
  deriving Repr, DecidableEq

/-- Environment of one Provisioner transaction: the storage visible at the
start, the outcome of the insert attempt (`none` = success), and the rows
committed by concurrent transactions that become visible on the retried
read after a uniqueness conflict. -/
structure TxEnv where
  store0 : List SimAccessToken
  insertOutcome : Option StoreError
  concurrent : List SimAccessToken

/-- Modelled from the spec: the control flow of
`store.FirstOrCreateSimAccessTokenTx` (§4.4 steps 1-4), not under src/.
Read; if miss, insert; on a uniqueness conflict retry the read path once
and return the now-existing row with is_created=false; on any other error
propagate it unchanged with the transaction rolled back (visible storage
stays at store0). Returns (operation trace, visible storage afterwards,
result or error). -/
def firstOrCreateTx (env : TxEnv) (accessToken tokenType mobileNumber : String) :
    List TxOp × List SimAccessToken × Except StoreError (SimAccessToken × Bool) :=
  match findToken env.store0 mobileNumber tokenType with
  | some row => ([TxOp.read], env.store0, Except.ok (row, false))
  | none =>
    match env.insertOutcome with
    | none =>
      let row : SimAccessToken := ⟨accessToken, mobileNumber, tokenType⟩
      ([TxOp.read, TxOp.insert], env.store0 ++ [row], Except.ok (row, true))
    | some StoreError.UniqueViolation =>
      match findToken (env.store0 ++ env.concurrent) mobileNumber tokenType with
      | some row =>
        ([TxOp.read, TxOp.insert, TxOp.read], env.store0, Except.ok (row, false))
      | none =>
        ([TxOp.read, TxOp.insert, TxOp.read], env.store0,
          Except.error StoreError.UniqueViolation)
    | some e => ([TxOp.read, TxOp.insert], env.store0, Except.error e)

/-- How many times the read path ran in a transaction trace. -/
def readCount (trace : List TxOp) : Nat :=
  (trace.filter (fun o => o == TxOp.read)).length

/-! ## Token codec -/

/-- The subject identity embedded in a token (spec §3). -/
structure Identity where
  subject_id : Int
  role : String
  deriving Repr, DecidableEq

/-- The payload of a token: identity, the session id it belongs to, and
issuance/expiry instants (spec §3, Token). Time is modelled as Nat. -/
structure TokenPayload where
  identity : Identity
  session_id : Nat
  issued_at : Nat
  expires_at : Nat
  deriving Repr, DecidableEq

/-- A sealed token envelope. Symmetric authenticated encryption is modelled
symbolically: the envelope records which key sealed it; verification with a
different key fails authentication. -/
structure TokenEnvelope where
  payload : TokenPayload
  sealedWith : Nat
  deriving Repr, DecidableEq

/-- Token verification errors (spec §4.1, §7). -/
inductive TokenError where
  | InvalidSignature
  | Expired
  deriving Repr, DecidableEq

/-- Modelled from the spec: `Issue` of the Token Codec (§4.1), not under
src/ — embeds the identity, a session id and the absolute expiry
now + ttl, sealed with the server key. -/
def issueWithSession (key : Nat) (id : Identity) (sessionId ttl now : Nat) :
    TokenEnvelope :=
  ⟨⟨id, sessionId, now, now + ttl⟩, key⟩

/-- Modelled from the spec: `Issue(identity, ttl)` (§4.1), with no
distinguished session. -/
def issue (key : Nat) (id : Identity) (ttl now : Nat) : TokenEnvelope :=
  issueWithSession key id 0 ttl now

/-- Modelled from the spec: `Verify` of the Token Codec (§4.1), not under
src/ — fails InvalidSignature if authentication fails, Expired if the
current time is past the expiry instant, and otherwise returns the
embedded identity unchanged. -/
def verify (key now : Nat) (tok : TokenEnvelope) : Except TokenError Identity :=
  if tok.sealedWith ≠ key then Except.error TokenError.InvalidSignature
  else if tok.payload.expires_at < now then Except.error TokenError.Expired
  else Except.ok tok.payload.identity

/-! ## Request gatekeeper -/

/-- Errors at the gatekeeper boundary (spec §4.3, §7). -/
inductive GateError where
  | Unauthorized
  | TokenInvalid (e : TokenError)
  | Forbidden
  deriving Repr, DecidableEq

/-- The two middleware constructors installed by `setupRouter`
(src/api, `authMiddleware` / `roleMiddleware`). -/
inductive Middleware where
  | authenticate
  | authorize (roles : List String)
  deriving Repr, DecidableEq

/-- Modelled from the spec: one middleware step of the Request Gatekeeper
(§4.3), not under src/. Authenticate extracts and verifies the bearer
token and attaches the identity to the request context; Authorize reads
the identity from context, failing closed with Unauthorized when none is
present, and checks its role against the required role set. -/
def runMiddleware (key now : Nat) (tok : Option TokenEnvelope) (m : Middleware)
    (ctxIdentity : Option Identity) : Except GateError (Option Identity) :=
  match m with
  | Middleware.authenticate =>
    match tok with
    | none => Except.error GateError.Unauthorized
    | some t =>
      match verify key now t with
      | Except.error e => Except.error (GateError.TokenInvalid e)
      | Except.ok id => Except.ok (some id)
  | Middleware.authorize roles =>
    match ctxIdentity with
    | none => Except.error GateError.Unauthorized
    | some id =>
      if roles.contains id.role then Except.ok (some id)
      else Except.error GateError.Forbidden

/-- Run a middleware chain left to right, threading the request-context
identity; the first failure halts the chain. An empty chain admits the
request. -/
def runChain (key now : Nat) (tok : Option TokenEnvelope) :
    List Middleware → Option Identity → Except GateError (Option Identity)
  | [], ctxIdentity => Except.ok ctxIdentity
  | m :: rest, ctxIdentity =>
    match runMiddleware key now tok m ctxIdentity with
    | Except.error e => Except.error e
    | Except.ok ctx2 => runChain key now tok rest ctx2

/-- Middleware list passed by `setupRouter` for the /users group
(src/api/station_observation.go, usersAuth). -/
def usersAuthChain : List Middleware :=
  [Middleware.authenticate, Middleware.authorize ["SUPERADMIN"]]

/-- Middleware list passed by `setupRouter` for the /roles group. -/
def rolesAuthChain : List Middleware :=
  [Middleware.authenticate, Middleware.authorize ["SUPERADMIN"]]

/-- Middleware list passed by `setupRouter` for the /stations group. -/
def stationsAuthChain : List Middleware :=
  [Middleware.authenticate, Middleware.authorize ["ADMIN"]]

/-- Middleware list passed by `setupRouter` for the
/stations/:station_id/observations group. -/
def stnObservationsAuthChain : List Middleware :=
  [Middleware.authenticate, Middleware.authorize ["ADMIN"]]

/-- All route groups of `setupRouter` on which both middlewares are
installed via `addMiddleware`. -/
def setupRouterAuthChains : List (List Middleware) :=
  [usersAuthChain, rolesAuthChain, stationsAuthChain, stnObservationsAuthChain]

/-- Checks that in a middleware list every authorize middleware is preceded
by an authenticate middleware; `seen` records whether an authenticate has
already run. -/
def authorizeAfterAuthenticate (seen : Bool) : List Middleware → Bool
  | [] => true
  | Middleware.authenticate :: rest => authorizeAfterAuthenticate true rest
  | Middleware.authorize _ :: rest => seen && authorizeAfterAuthenticate seen rest

/-! ## Router wiring (`addMiddleware`, src/api) -/

/-- Gin's three run modes. -/
inductive GinMode where
  | DebugMode
  | ReleaseMode
  | TestMode
  deriving Repr, DecidableEq

/-- A route group carrying its attached middleware (`gin.RouterGroup`). -/
structure RouterGroup where
  middleware : List Middleware
  deriving Repr, DecidableEq

/-- A route group with no middleware attached. -/
def emptyRouterGroup : RouterGroup := ⟨[]⟩

/-- Embedding of `addMiddleware` (src/api/station_observation.go): attach
the given middleware to the group unless gin runs in TestMode, in which
case the group is returned unchanged. -/
def addMiddleware (mode : GinMode) (r : RouterGroup) (m : List Middleware) :
    RouterGroup :=
  if mode ≠ GinMode.TestMode then { middleware := r.middleware ++ m } else r

/-! ## Server construction (`NewServer`, src/api) -/

/-- The fixed symmetric key length required by the Paseto maker
(chacha20poly1305 key size). -/
def symmetricKeySize : Nat := 32

/-- Token maker construction errors. -/
inductive MakerError where
  | InvalidKeySize (got : Nat)
  deriving Repr, DecidableEq

/-- A constructed Paseto token maker holding the symmetric key. -/
structure PasetoMaker where
  symmetricKey : String
  deriving Repr, DecidableEq

/-- Modelled from the spec: `token.NewPasetoMaker` (§4.1, §6), not under
src/ — fails with InvalidKeySize unless the symmetric key has the fixed
required byte length. -/
def newPasetoMaker (key : String) : Except MakerError PasetoMaker :=
  if key.length ≠ symmetricKeySize then
    Except.error (MakerError.InvalidKeySize key.length)
  else Except.ok ⟨key⟩

/-- Server configuration (the fields of `util.Config` this core reads). -/
structure Config where
  tokenSymmetricKey : String
  apiBasePath : String
  deriving Repr, DecidableEq

/-- A constructed server (`api.Server`). -/
structure Server where
  config : Config
  tokenMaker : PasetoMaker
  deriving Repr, DecidableEq

/-- Embedding of `NewServer` (src/api/station_observation.go): construct
the token maker from the configured symmetric key; if that fails, return
the error and construct no server. -/
def newServer (config : Config) : Except MakerError Server :=
  match newPasetoMaker config.tokenSymmetricKey with
  | Except.error e => Except.error e
  | Except.ok m => Except.ok ⟨config, m⟩

/-! ## Session store and renew flow -/

/-- A refresh session row (spec §3). -/
structure Session where
  id : Nat
  subject_id : Int
  refresh_token_id : Nat
  user_agent : String
  client_ip : String
  is_blocked : Bool
  expires_at : Nat
  deriving Repr, DecidableEq

/-- Errors of the renew flow (spec §4.2, §7). -/
inductive RenewError where
  | TokenInvalid (e : TokenError)
  | NotFound
  | Blocked
  | Mismatch
  deriving Repr, DecidableEq

/-- Look up a session row by id (`store.GetSessionByID`). -/
def getSession (sessions : List Session) (sid : Nat) : Option Session :=
  sessions.find? (fun s => s.id == sid)

/-- Modelled from the spec: `RenewAccessToken` (§4.2), not under src/ —
verify the refresh token via the codec, load the session by the token's
embedded session id, reject with Blocked if the session is blocked, with
Mismatch if the session's stored subject differs from the token's
identity, and otherwise issue and return a new short-TTL access token. -/
def renewAccessToken (key now accessTtl : Nat) (sessions : List Session)
    (refreshTok : TokenEnvelope) : Except RenewError TokenEnvelope :=
  match verify key now refreshTok with
  | Except.error e => Except.error (RenewError.TokenInvalid e)
  | Except.ok id =>
    match getSession sessions refreshTok.payload.session_id with
    | none => Except.error RenewError.NotFound
    | some s =>
      if s.is_blocked then Except.error RenewError.Blocked
      else if s.subject_id ≠ id.subject_id then Except.error RenewError.Mismatch
      else Except.ok (issueWithSession key id refreshTok.payload.session_id accessTtl now)

/-! ## `UpdateUser` (src/db/sqlc/user.sql.go) -/

/-- A row of the users table, with the columns of the generated `User`
struct; nullable timestamp columns are Options. -/
structure User where
  id : Int
  username : String
  full_name : String
  email : String
  password : String
  email_verified_at : Option Nat
  password_changed_at : Option Nat
  created_at : Option Nat
  updated_at : Option Nat
  deriving Repr, DecidableEq

/-- The parameters of `UpdateUser` (`db.UpdateUserParams`); pgtype nullable
parameters are Options. -/
structure UpdateUserParams where
  password : Option String
  password_changed_at : Option Nat
  full_name : Option String
  email : Option String
  id : Int
  deriving Repr, DecidableEq

/-- SQL COALESCE over a nullable parameter and a nullable column. -/
def coalesceOpt (a b : Option Nat) : Option Nat :=
  match a with
  | some t => some t
  | none => b

/-- The SET clause of the `updateUser` statement applied to one row:
password, password_changed_at, full_name and email are each coalesced with
the existing value, and updated_at is set to now; no other column appears
in the SET clause. -/
def updateUserRow (now : Nat) (arg : UpdateUserParams) (u : User) : User :=
  { u with
    password := arg.password.getD u.password
    password_changed_at := coalesceOpt arg.password_changed_at u.password_changed_at
    full_name := arg.full_name.getD u.full_name
    email := arg.email.getD u.email
    updated_at := some now }

/-- Embedding of the `UpdateUser` query: apply the SET clause to the rows
matching WHERE id = arg.id and leave all other rows untouched. -/
def updateUser (now : Nat) (table : List User) (arg : UpdateUserParams) :
    List User :=
  table.map (fun u => if u.id = arg.id then updateUserRow now arg u else u)

/-! ## Helper lemmas -/

/-- A key with no row in storage has an empty read result. -/
theorem findToken_eq_none_of_countKey_zero (store : List SimAccessToken)
    (mobileNumber tokenType : String)
    (h : countKey store mobileNumber tokenType = 0) :
    findToken store mobileNumber tokenType = none := by
  unfold countKey at h
  unfold findToken
  rw [List.find?_eq_none]
  intro x hx hpx
  have hmem : x ∈ store.filter
      (fun r => r.mobile_number == mobileNumber && r.token_type == tokenType) :=
    List.mem_filter.mpr ⟨hx, hpx⟩
  rw [List.length_eq_zero.mp h] at hmem
  exact absurd hmem (List.not_mem_nil x)

/-- Reading after appending a matching row to a store with no matching row
finds the appended row. -/
theorem findToken_append_singleton (store : List SimAccessToken)
    (mobileNumber tokenType : String) (row : SimAccessToken)
    (hnone : findToken store mobileNumber tokenType = none)
    (hmob : row.mobile_number = mobileNumber) (htype : row.token_type = tokenType) :
    findToken (store ++ [row]) mobileNumber tokenType = some row := by
  unfold findToken at hnone ⊢
  rw [List.find?_append, hnone]
  simp [List.find?, hmob, htype]

/-- With a row already present for the key, every later serialized call
returns that row with is_created=false and leaves storage unchanged. -/
theorem runCalls_of_found (store : List SimAccessToken)
    (mobileNumber tokenType : String) (row : SimAccessToken)
    (hfind : findToken store mobileNumber tokenType = some row)
    (ts : List String) :
    runCalls store mobileNumber tokenType ts =
      (store, ts.map (fun _ => (row, false))) := by
  induction ts with
  | nil => rfl
  | cons t ts ih =>
    simp only [runCalls, firstOrCreate, hfind, ih, List.map_cons]

/-- Filtering the created results out of an all-existing tail is empty. -/
theorem filter_snd_map_constFalse (row : SimAccessToken) (ts : List String) :
    ((ts.map (fun _ => (row, false))).filter
      (fun r : SimAccessToken × Bool => r.2)).length = 0 := by
  induction ts with
  | nil => rfl
  | cons t ts ih => simp [ih]

/-! ## Claim theorems -/

/-- C2: if a row already exists for the key (mobile_number, token_type),
a call to the Provisioner supplying a different access_token returns the
stored row with is_created=false and leaves storage unchanged — the
supplied token is never written. -/
theorem firstOrCreate_existing_token_wins (store : List SimAccessToken)
    (mobileNumber tokenType supplied : String) (rowA : SimAccessToken)
    (hfind : findToken store mobileNumber tokenType = some rowA) :
    firstOrCreate store supplied tokenType mobileNumber = (store, rowA, false) := by
  simp only [firstOrCreate, hfind]

/-- C2 witness: with a stored row holding token A, supplying token B for
the same key returns A with is_created=false and storage unchanged. -/
theorem firstOrCreate_existing_token_wins_witness :
    findToken [⟨"A", "639171234567", "SMS"⟩] "639171234567" "SMS" =
      some ⟨"A", "639171234567", "SMS"⟩ ∧
    firstOrCreate [⟨"A", "639171234567", "SMS"⟩] "B" "SMS" "639171234567" =
      ([⟨"A", "639171234567", "SMS"⟩], ⟨"A", "639171234567", "SMS"⟩, false) :=
  ⟨by decide,
    firstOrCreate_existing_token_wins [⟨"A", "639171234567", "SMS"⟩]
      "639171234567" "SMS" "B" ⟨"A", "639171234567", "SMS"⟩ (by decide)⟩

/-- C3: when the Provisioner finds no existing row, then on a uniqueness
conflict at insert it retries the read path exactly once (the trace holds
exactly two reads) and returns the now-existing row with is_created=false
instead of surfacing the conflict; on any other error it performs no retry
(exactly one read), propagates the error unchanged, and the transaction is
rolled back (visible storage stays at store0). -/
theorem firstOrCreateTx_retry_policy (env : TxEnv)
    (accessToken tokenType mobileNumber : String) (row : SimAccessToken)
    (hmiss : findToken env.store0 mobileNumber tokenType = none) :
    (env.insertOutcome = some StoreError.UniqueViolation →
      findToken (env.store0 ++ env.concurrent) mobileNumber tokenType = some row →
      firstOrCreateTx env accessToken tokenType mobileNumber =
          ([TxOp.read, TxOp.insert, TxOp.read], env.store0, Except.ok (row, false)) ∧
        readCount (firstOrCreateTx env accessToken tokenType mobileNumber).1 = 2) ∧
    (∀ e : StoreError, e ≠ StoreError.UniqueViolation →
      env.insertOutcome = some e →
      firstOrCreateTx env accessToken tokenType mobileNumber =
          ([TxOp.read, TxOp.insert], env.store0, Except.error e) ∧
        readCount (firstOrCreateTx env accessToken tokenType mobileNumber).1 = 1) := by
  constructor
  · intro hconf hretry
    have heq : firstOrCreateTx env accessToken tokenType mobileNumber =
        ([TxOp.read, TxOp.insert, TxOp.read], env.store0, Except.ok (row, false)) := by
      simp only [firstOrCreateTx, hmiss, hconf, hretry]
    exact ⟨heq, by rw [heq]; rfl⟩
  · intro e hne hout
    have heq : firstOrCreateTx env accessToken tokenType mobileNumber =
        ([TxOp.read, TxOp.insert], env.store0, Except.error e) := by
      cases e with
      | UniqueViolation => exact absurd rfl hne
      | Internal => simp only [firstOrCreateTx, hmiss, hout]
    exact ⟨heq, by rw [heq]; rfl⟩

/-- C3 witness: at a concrete environment with an empty starting store, a
uniqueness conflict at insert leads to exactly one retry returning the
concurrently inserted row A with is_created=false; a generic Internal
failure is propagated unchanged with no retry and the store rolled back. -/
theorem firstOrCreateTx_retry_policy_witness :
    (firstOrCreateTx ⟨[], some StoreError.UniqueViolation,
        [⟨"A", "639171234567", "SMS"⟩]⟩ "B" "SMS" "639171234567" =
        ([TxOp.read, TxOp.insert, TxOp.read], [],
          Except.ok (⟨"A", "639171234567", "SMS"⟩, false)) ∧
      readCount (firstOrCreateTx ⟨[], some StoreError.UniqueViolation,
        [⟨"A", "639171234567", "SMS"⟩]⟩ "B" "SMS" "639171234567").1 = 2) ∧
    (firstOrCreateTx ⟨[], some StoreError.Internal, []⟩ "B" "SMS" "639171234567" =
        ([TxOp.read, TxOp.insert], [], Except.error StoreError.Internal) ∧
      readCount (firstOrCreateTx ⟨[], some StoreError.Internal, []⟩
        "B" "SMS" "639171234567").1 = 1) :=
  ⟨(firstOrCreateTx_retry_policy ⟨[], some StoreError.UniqueViolation,
      [⟨"A", "639171234567", "SMS"⟩]⟩ "B" "SMS" "639171234567"
      ⟨"A", "639171234567", "SMS"⟩ (by decide)).1 rfl (by decide),
    (firstOrCreateTx_retry_policy ⟨[], some StoreError.Internal, []⟩
      "B" "SMS" "639171234567" ⟨"A", "639171234567", "SMS"⟩ (by decide)).2
      StoreError.Internal (by decide) rfl⟩

/-- C1: N serialized provisioning calls with the same (mobile_number,
token_type) key and arbitrary, possibly differing, access_token values,
starting from storage with no row for that key, leave exactly one row for
the key in storage, produce exactly one is_created=true among the N
results, and all N results report the same stored row (hence the same
stored access_token value). The concurrent schedule is modelled by the
arbitrary serial order of the atomic transactions (spec §5). -/
theorem firstOrCreate_idempotent_provisioning (store : List SimAccessToken)
    (mobileNumber tokenType : String) (toks : List String)
    (hne : toks ≠ []) (hempty : countKey store mobileNumber tokenType = 0) :
    countKey (runCalls store mobileNumber tokenType toks).1 mobileNumber tokenType = 1 ∧
    ((runCalls store mobileNumber tokenType toks).2.filter
      (fun r : SimAccessToken × Bool => r.2)).length = 1 ∧
    ∃ row : SimAccessToken,
      findToken (runCalls store mobileNumber tokenType toks).1 mobileNumber tokenType =
        some row ∧
      ∀ r ∈ (runCalls store mobileNumber tokenType toks).2, r.1 = row := by
  obtain ⟨t, ts, rfl⟩ := List.exists_cons_of_ne_nil hne
  have hnone := findToken_eq_none_of_countKey_zero store mobileNumber tokenType hempty
  have hfilter : store.filter
      (fun r => r.mobile_number == mobileNumber && r.token_type == tokenType) = [] := by
    unfold countKey at hempty
    exact List.length_eq_zero.mp hempty
  have hfirst : firstOrCreate store t tokenType mobileNumber =
      (store ++ [⟨t, mobileNumber, tokenType⟩], ⟨t, mobileNumber, tokenType⟩, true) := by
    simp only [firstOrCreate, hnone]
  have hfind1 : findToken (store ++ [⟨t, mobileNumber, tokenType⟩])
      mobileNumber tokenType = some ⟨t, mobileNumber, tokenType⟩ :=
    findToken_append_singleton store mobileNumber tokenType _ hnone rfl rfl
  have hrun : runCalls store mobileNumber tokenType (t :: ts) =
      (store ++ [⟨t, mobileNumber, tokenType⟩],
        (⟨t, mobileNumber, tokenType⟩, true) ::
          ts.map (fun _ => (⟨t, mobileNumber, tokenType⟩, false))) := by
    simp only [runCalls, hfirst,
      runCalls_of_found _ mobileNumber tokenType _ hfind1 ts]
  rw [hrun]
  refine ⟨?_, ?_, ⟨t, mobileNumber, tokenType⟩, hfind1, ?_⟩
  · unfold countKey
    rw [List.filter_append, hfilter]
    simp
  · simp [List.filter_cons, filter_snd_map_constFalse]
  · intro r hr
    rcases List.mem_cons.mp hr with h | h
    · rw [h]
    · obtain ⟨x, _, hx⟩ := List.mem_map.mp h
      rw [← hx]

/-- C1 witness: two serialized calls with the same key supplying differing
tokens A then B leave one row, one created result, and both results
reporting the stored row holding A. -/
theorem firstOrCreate_idempotent_provisioning_witness :
    (["A", "B"] : List String) ≠ [] ∧
    countKey [] "639171234567" "SMS" = 0 ∧
    (countKey (runCalls [] "639171234567" "SMS" ["A", "B"]).1 "639171234567" "SMS" = 1 ∧
      ((runCalls [] "639171234567" "SMS" ["A", "B"]).2.filter
        (fun r : SimAccessToken × Bool => r.2)).length = 1 ∧
      ∃ row : SimAccessToken,
        findToken (runCalls [] "639171234567" "SMS" ["A", "B"]).1 "639171234567" "SMS" =
          some row ∧
        ∀ r ∈ (runCalls [] "639171234567" "SMS" ["A", "B"]).2, r.1 = row) :=
  ⟨by decide, by decide,
    firstOrCreate_idempotent_provisioning [] "639171234567" "SMS" ["A", "B"]
      (by decide) (by decide)⟩

/-- C4: for every identity and positive TTL, verifying the issued token at
any time within the TTL window succeeds and returns exactly the embedded
identity. -/
theorem verify_issue_roundtrip (key : Nat) (id : Identity) (ttl now t : Nat)
    (httl : 0 < ttl) (ht : t ≤ now + ttl) :
    verify key t (issue key id ttl now) = Except.ok id := by
  simp only [verify, issue, issueWithSession, ne_eq]
  rw [if_neg (by simp), if_neg (by omega)]

/-- C4 witness: verifying a token issued for subject 42 with TTL 10 at a
time inside the window returns the identity unchanged. -/
theorem verify_issue_roundtrip_witness :
    0 < 10 ∧ (7 : Nat) ≤ 5 + 10 ∧
    verify 1 7 (issue 1 ⟨42, "ADMIN"⟩ 10 5) = Except.ok ⟨42, "ADMIN"⟩ :=
  ⟨by decide, by decide,
    verify_issue_roundtrip 1 ⟨42, "ADMIN"⟩ 10 5 7 (by decide) (by decide)⟩

/-- C5: a token issued with TTL=0 fails verification with Expired at any
strictly later time, and any authentic token verified at a time strictly
after its embedded expiry instant fails with Expired; in both cases no
identity is returned. -/
theorem verify_expired_policy (key : Nat) (id : Identity) (now t : Nat)
    (tok : TokenEnvelope) :
    (now < t → verify key t (issue key id 0 now) = Except.error TokenError.Expired) ∧
    (tok.sealedWith = key → tok.payload.expires_at < t →
      verify key t tok = Except.error TokenError.Expired) := by
  constructor
  · intro h
    simp only [verify, issue, issueWithSession, ne_eq]
    rw [if_neg (by simp), if_pos (by omega)]
  · intro hk he
    simp only [verify, ne_eq, hk]
    rw [if_neg (by simp), if_pos he]

/-- C5 witness: a token issued at time 5 with TTL 0 fails with Expired at
time 6, and an authentic token whose expiry is 5 fails with Expired at
time 9. -/
theorem verify_expired_policy_witness :
    ((5 : Nat) < 6 ∧
      verify 1 6 (issue 1 ⟨42, "ADMIN"⟩ 0 5) = Except.error TokenError.Expired) ∧
    ((TokenEnvelope.mk ⟨⟨42, "ADMIN"⟩, 0, 5, 5⟩ 1).sealedWith = 1 ∧
      (TokenEnvelope.mk ⟨⟨42, "ADMIN"⟩, 0, 5, 5⟩ 1).payload.expires_at < 9 ∧
      verify 1 9 (TokenEnvelope.mk ⟨⟨42, "ADMIN"⟩, 0, 5, 5⟩ 1) =
        Except.error TokenError.Expired) :=
  ⟨⟨by decide,
      (verify_expired_policy 1 ⟨42, "ADMIN"⟩ 5 6
        (TokenEnvelope.mk ⟨⟨42, "ADMIN"⟩, 0, 5, 5⟩ 1)).1 (by decide)⟩,
    ⟨by decide, by decide,
      (verify_expired_policy 1 ⟨42, "ADMIN"⟩ 5 9
        (TokenEnvelope.mk ⟨⟨42, "ADMIN"⟩, 0, 5, 5⟩ 1)).2 rfl (by decide)⟩⟩

/-- C6: for every configured required role set, the Authorize middleware
fails closed with Unauthorized whenever no identity is present in the
request context (regardless of key, time or supplied token), and in every
route group of `setupRouter` where both middlewares are installed,
Authenticate appears before Authorize in the chain — Authorize never runs
before Authenticate. -/
theorem authorize_fails_closed_and_ordering :
    (∀ (key now : Nat) (tok : Option TokenEnvelope) (roles : List String),
      runMiddleware key now tok (Middleware.authorize roles) none =
        Except.error GateError.Unauthorized) ∧
    setupRouterAuthChains.all (fun ms => authorizeAfterAuthenticate false ms) = true :=
  ⟨fun _ _ _ _ => rfl, by decide⟩

/-- C7: a renew call presenting the refresh token of a session that has
been marked blocked fails with the Blocked error and issues no new access
token (the result is an error, not a token). -/
theorem renewAccessToken_blocked (key now accessTtl : Nat)
    (sessions : List Session) (refreshTok : TokenEnvelope) (s : Session)
    (hkey : refreshTok.sealedWith = key)
    (hexp : now ≤ refreshTok.payload.expires_at)
    (hsess : getSession sessions refreshTok.payload.session_id = some s)
    (hblocked : s.is_blocked = true) :
    renewAccessToken key now accessTtl sessions refreshTok =
      Except.error RenewError.Blocked := by
  have h2 : ¬ refreshTok.payload.expires_at < now := by omega
  have hv : verify key now refreshTok = Except.ok refreshTok.payload.identity := by
    simp only [verify, ne_eq, hkey]
    rw [if_neg (by simp), if_neg h2]
  simp only [renewAccessToken, hv, hsess, hblocked, if_pos]

/-- C7 witness: a blocked session with id 7 makes renewal with its valid
refresh token fail with Blocked. -/
theorem renewAccessToken_blocked_witness :
    (TokenEnvelope.mk ⟨⟨42, "ADMIN"⟩, 7, 0, 100⟩ 1).sealedWith = 1 ∧
    (5 : Nat) ≤ (TokenEnvelope.mk ⟨⟨42, "ADMIN"⟩, 7, 0, 100⟩ 1).payload.expires_at ∧
    getSession [⟨7, 42, 99, "ua", "ip", true, 100⟩]
      (TokenEnvelope.mk ⟨⟨42, "ADMIN"⟩, 7, 0, 100⟩ 1).payload.session_id =
      some ⟨7, 42, 99, "ua", "ip", true, 100⟩ ∧
    renewAccessToken 1 5 15 [⟨7, 42, 99, "ua", "ip", true, 100⟩]
      (TokenEnvelope.mk ⟨⟨42, "ADMIN"⟩, 7, 0, 100⟩ 1) =
      Except.error RenewError.Blocked :=
  ⟨rfl, by decide, by decide,
    renewAccessToken_blocked 1 5 15 [⟨7, 42, 99, "ua", "ip", true, 100⟩]
      (TokenEnvelope.mk ⟨⟨42, "ADMIN"⟩, 7, 0, 100⟩ 1)
      ⟨7, 42, 99, "ua", "ip", true, 100⟩ rfl (by decide) (by decide) rfl⟩

/-- C8: a configuration whose symmetric token key makes the token maker
constructor fail is startup-fatal — `NewServer` returns the error and no
server is constructed, so the misconfiguration cannot surface on a request
path at runtime. -/
theorem newServer_fatal_on_bad_key (config : Config) (e : MakerError)
    (h : newPasetoMaker config.tokenSymmetricKey = Except.error e) :
    newServer config = Except.error e := by
  simp only [newServer, h]

/-- C8 witness: a 5-byte symmetric key (required length 32) makes the token
maker constructor fail with InvalidKeySize and `NewServer` return that
error. -/
theorem newServer_fatal_on_bad_key_witness :
    newPasetoMaker (Config.mk "short" "/api/v1").tokenSymmetricKey =
      Except.error (MakerError.InvalidKeySize 5) ∧
    newServer (Config.mk "short" "/api/v1") =
      Except.error (MakerError.InvalidKeySize 5) :=
  ⟨rfl,
    newServer_fatal_on_bad_key (Config.mk "short" "/api/v1")
      (MakerError.InvalidKeySize 5) rfl⟩

/-- C9: `addMiddleware` attaches the given middleware to the route group
exactly when gin's mode is not TestMode (enumerated: DebugMode and
ReleaseMode attach); in TestMode it returns the group unchanged, so a
protected group stays middleware-free and its endpoints admit a request
carrying no token. -/
theorem addMiddleware_skips_in_test_mode :
    (∀ (r : RouterGroup) (m : List Middleware),
      addMiddleware GinMode.TestMode r m = r) ∧
    (∀ (r : RouterGroup) (m : List Middleware),
      addMiddleware GinMode.DebugMode r m = ⟨r.middleware ++ m⟩ ∧
      addMiddleware GinMode.ReleaseMode r m = ⟨r.middleware ++ m⟩) ∧
    (∀ (key now : Nat) (roles : List String),
      runChain key now none
        (addMiddleware GinMode.TestMode emptyRouterGroup
          [Middleware.authenticate, Middleware.authorize roles]).middleware none =
        Except.ok none) :=
  ⟨fun _ _ => rfl, fun _ _ => ⟨rfl, rfl⟩, fun _ _ _ => rfl⟩

/-- C10: `UpdateUser` leaves the row's id, username, created_at and
email_verified_at unchanged; it writes only password, password_changed_at,
full_name and email (each coalesced with the existing value when the
parameter is null) and updated_at, and the table-level query touches only
rows matching the id. -/
theorem updateUser_frame (now : Nat) (arg : UpdateUserParams) (u : User) :
    (updateUserRow now arg u).id = u.id ∧
    (updateUserRow now arg u).username = u.username ∧
    (updateUserRow now arg u).created_at = u.created_at ∧
    (updateUserRow now arg u).email_verified_at = u.email_verified_at ∧
    (updateUserRow now arg u).password = arg.password.getD u.password ∧
    (updateUserRow now arg u).password_changed_at =
      coalesceOpt arg.password_changed_at u.password_changed_at ∧
    (updateUserRow now arg u).full_name = arg.full_name.getD u.full_name ∧
    (updateUserRow now arg u).email = arg.email.getD u.email ∧
    (updateUserRow now arg u).updated_at = some now ∧
    ∀ table : List User,
      updateUser now table arg =
        table.map (fun v => if v.id = arg.id then updateUserRow now arg v else v) :=
  ⟨rfl, rfl, rfl, rfl, rfl, rfl, rfl, rfl, rfl, fun _ => rfl⟩

end PanahonApi
